import Mathlib

/-!
Verification of the iceberg market-making engine (`src/monitor.js`,
`src/unnamed/part_000` = `network.js`, callers in `src/iceberg.js`).

Shallow embedding conventions:
* JavaScript floating-point / BigNumber arithmetic on probabilities,
  sizes and scaled odds is modelled over `ℚ`.
* Network calls are oracle inputs: the bytes a call would return are
  passed in as arguments (`totalFilledRaw`, the fetched active-order
  lists, the per-attempt outcomes of `fetchActiveOrders`).
* The mutable `monitoringConfig` map is passed explicitly; for
  `postOrderForPosition`, which reads it at two different moments of
  the event-loop timeline, the two (possibly different) key sets are
  separate arguments `reg1`, `reg2`.
* Cryptographic hashing/signing is not interpreted: the submitted
  order carries its fields verbatim and the returned identity hash is
  an abstract string.
-/

namespace Iceberg

/-- Constant from `config.js` (the file itself is not in `src/`; the value
is fixed by the source comment in `monitor.js` line 211, "step = 0.0025",
and by the spec's price-ladder step 0.0025). -/
def ODDS_LADDER_STEP_SIZE : ℚ := 25 / 10000

/-- Constant from `config.js`: implied probability is scaled by 10^20
(`monitor.js` line 160 divides `percentageOdds` by 1e20; the source
comment at line 211 multiplies the step by 1e20). -/
def IMPLIED_ODDS_MULTIPLIER : ℚ := 10 ^ 20

/-- The operator's address (`process.env.USER_ADDRESS`).  Its concrete
value is irrelevant to the claims; only equality with entry makers
matters. -/
def MAKER_ADDRESS : String := "0xMAKER"

/-- Token address from `config.js`; opaque to every claim. -/
def BASE_TOKEN : String := "0xBASE_TOKEN"

/-- Executor address from `config.js`; opaque to every claim. -/
def EXECUTOR : String := "0xEXECUTOR"

/-- A raw order-book record as delivered positionally by the push feed
(and by `fetchInitialOrderBook`, which re-packs the REST snapshot into
the same positional layout): `monitor.js` lines 80-95.  Field `i` of the
array is the `i`-th field here. -/
structure RawOrder where
  orderHash : String
  status : String
  fillAmount : ℚ
  maker : String
  totalBetSize : ℚ
  percentageOdds : ℚ
  expiry : ℤ
  apiExpiry : ℤ
  salt : String
  isMakerBettingOutcomeOne : Bool
  signature : String
  updateTime : ℤ
  chainVersion : String
  sportXeventId : String
deriving DecidableEq, Repr

/-- A stored Order-Book Entry (`monitor.js` lines 125-134).  The
`totalBetSize` is the raw size divided by 1e6 and rendered with
`toFixed(4)`, i.e. rounded (half-up) to 4 decimal places. -/
structure OBEntry where
  orderHash : String
  status : String
  maker : String
  totalBetSize : ℚ
  percentageOdds : ℚ
  expiry : ℤ
  isMakerBettingOutcomeOne : Bool
  updateTime : ℤ
deriving DecidableEq, Repr

/-- BigNumber `toFixed(4)` on a nonnegative size: round half-up to 4
decimal places (`monitor.js` line 129). -/
def toFixed4 (x : ℚ) : ℚ := (round (x * 10 ^ 4) : ℚ) / 10 ^ 4

/-- `handleOrderBookUpdate` (`monitor.js` lines 105-143): normalize each
raw record, discard records whose converted size is below
`minOrderSize` or whose maker is the operator, and append the survivors
to the market's existing list (merge, never replace). -/
def handleOrderBookUpdate (makerAddress : String) (orderBook : List OBEntry)
    (orders : List RawOrder) (minOrderSize : ℚ := 100) : List OBEntry :=
  let newOrderBook := orders.filterMap fun o =>
    let orderSize := o.totalBetSize / 10 ^ 6
    if orderSize < minOrderSize ∨ o.maker = makerAddress then none
    else some
      { orderHash := o.orderHash
        status := o.status
        maker := o.maker
        totalBetSize := toFixed4 orderSize
        percentageOdds := o.percentageOdds
        expiry := o.expiry
        isMakerBettingOutcomeOne := o.isMakerBettingOutcomeOne
        updateTime := o.updateTime }
  orderBook ++ newOrderBook

/-- A market's book after a sequence of order-book updates, starting
from the empty list (`orderBooks.set(marketHash, [])`), each applied
with the ingest-time default `minOrderSize = 100`. -/
def applyUpdates (makerAddress : String) (updates : List (List RawOrder)) : List OBEntry :=
  updates.foldl (fun bk batch => handleOrderBookUpdate makerAddress bk batch 100) []

/-- Maker implied probability of a stored entry (`monitor.js` line 160):
`parseFloat(order.percentageOdds) / 1e20`. -/
def probOf (e : OBEntry) : ℚ := e.percentageOdds / 10 ^ 20

/-- Loop body of the `bestMakerProbOpposite` scan in
`getMarketDataFromOrderBook` (`monitor.js` lines 151-166): skip entries
below `minOrderSize`; on the opposite side, keep the running maximum
probability. -/
def bestOppStep (isUserBettingOutcomeOne : Bool) (minOrderSize : ℚ)
    (acc : ℚ) (e : OBEntry) : ℚ :=
  if e.totalBetSize < minOrderSize then acc
  else if e.isMakerBettingOutcomeOne != isUserBettingOutcomeOne then
    (if acc < probOf e then probOf e else acc)
  else acc

/-- The best opposing maker implied probability: the scan of
`getMarketDataFromOrderBook` starting from 0.  (The spec calls this
`bestOpposingPrice`.) -/
def bestMakerProbOpposite (book : List OBEntry) (isUserBettingOutcomeOne : Bool)
    (minOrderSize : ℚ) : ℚ :=
  book.foldl (bestOppStep isUserBettingOutcomeOne minOrderSize) 0

/-- Loop body of `getVigFromOrderBook` (`monitor.js` lines 178-194),
acting on the state `(bestMakerProbO1, bestMakerProbO2, validOrders)`:
skip entries below `minOrderSize`; otherwise take `Math.max` into the
entry's side and count the entry as valid. -/
def vigStep (minOrderSize : ℚ) (acc : ℚ × ℚ × ℕ) (e : OBEntry) : ℚ × ℚ × ℕ :=
  if e.totalBetSize < minOrderSize then acc
  else if e.isMakerBettingOutcomeOne then (max acc.1 (probOf e), acc.2.1, acc.2.2 + 1)
  else (acc.1, max acc.2.1 (probOf e), acc.2.2 + 1)

/-- `getVigFromOrderBook` (`monitor.js` lines 173-208): scan the stored
book; if no valid (size-qualifying) order was seen return 0.0,
otherwise return `(1 - bestMakerProbO2) + (1 - bestMakerProbO1) - 1`. -/
def getVigFromOrderBook (book : List OBEntry) (minOrderSize : ℚ := 100) : ℚ :=
  let r := book.foldl (vigStep minOrderSize) (0, 0, 0)
  if r.2.2 = 0 then 0
  else ((1 - r.2.1) + (1 - r.1)) - 1

/-- `getMarketDataFromOrderBook` (`monitor.js` lines 146-171): returns
`(bestTakerOdds, vig)` with `bestTakerOdds = 1 - bestMakerProbOpposite`. -/
def getMarketDataFromOrderBook (book : List OBEntry) (isUserBettingOutcomeOne : Bool)
    (minOrderSize : ℚ := 100) : ℚ × ℚ :=
  (1 - bestMakerProbOpposite book isUserBettingOutcomeOne minOrderSize,
   getVigFromOrderBook book minOrderSize)

/-- `roundDownOddsToNearestStep` (`monitor.js` lines 210-214): floor the
scaled odds to the nearest multiple of
`ODDS_LADDER_STEP_SIZE * IMPLIED_ODDS_MULTIPLIER`. -/
def roundDownOddsToNearestStep (oddsBigNum : ℚ) : ℚ :=
  let step := ODDS_LADDER_STEP_SIZE * IMPLIED_ODDS_MULTIPLIER
  (⌊oddsBigNum / step⌋ : ℚ) * step

/-- The Signed Order built by `postOrderForPosition` (`monitor.js`
lines 263-274).  `percentageOdds` holds the laddered scaled value
(`toFixed(0)` of an integer-valued BigNumber); `apiExpiry` is
`Math.floor(Date.now() / 1000) + 300` with `nowSec` the floored
current second.  The keccak identity hash and the wallet signature are
not interpreted. -/
structure SignedOrder where
  marketHash : String
  maker : String
  baseToken : String
  totalBetSize : ℤ
  percentageOdds : ℚ
  apiExpiry : ℤ
  expiry : ℤ
  executor : String
  isMakerBettingOutcomeOne : Bool
  salt : String
deriving DecidableEq, Repr

/-- Outcome of one `postOrderForPosition` call: `submitted` is the order
sent to `POST /orders/new` (if the call reached submission), `result`
is the JS return value (`some` identity hash, or `none` for `null`). -/
structure PostOutcome where
  submitted : Option SignedOrder
  result : Option String
deriving DecidableEq, Repr

/-- The best taker odds read by `postOrderForPosition` line 227 (and by
`processMarket` line 367): first component of
`getMarketDataFromOrderBook` for the side `outcome === 1`. -/
def bestTakerOddsFor (book : List OBEntry) (outcome : ℤ) (minOrderSize : ℚ) : ℚ :=
  (getMarketDataFromOrderBook book (outcome == 1) minOrderSize).1

/-- The edge-adjusted target probability of `postOrderForPosition`
line 234: `bestTakerOdds * (1 - edge / 100)`. -/
def adjustedTakerOdds (book : List OBEntry) (outcome : ℤ) (edge minOrderSize : ℚ) : ℚ :=
  bestTakerOddsFor book outcome minOrderSize * (1 - edge / 100)

/-- `postOrderForPosition` (`monitor.js` lines 220-314).  `reg1` and
`reg2` are the key sets of `monitoringConfig` at the pre-computation
check (line 221) and at the post-computation re-check (line 250); a
concurrent "stop" makes them differ.  `submitOk` is the oracle for the
HTTP success of `POST /orders/new`; on HTTP failure the request was
still sent (`submitted` is set) but the function returns `null`.
The guard at line 229, `!bestTakerOdds || bestTakerOdds <= 0 || >= 1`,
collapses to the range test (falsiness of a number means 0 or NaN, and
0 is covered by `<= 0`; NaN does not arise over `ℚ`).  The
`isNaN(Number(scaledAmount))` guard at line 255 likewise cannot fire
over `ℚ`.  `scaledAmount` is `BigNumber(amount).times(1e6).toFixed(0)`,
i.e. half-up rounding to an integer.  The returned identity hash is
abstracted as a string derived from the salt. -/
def postOrderForPosition (reg1 reg2 : List String) (marketHash : String)
    (outcome : ℤ) (amount edge : ℚ) (minOrderSize : ℚ) (book : List OBEntry)
    (nowSec : ℤ) (salt : String) (submitOk : Bool) : PostOutcome :=
  if reg1.contains marketHash then
    if bestTakerOddsFor book outcome minOrderSize ≤ 0 ∨
        1 ≤ bestTakerOddsFor book outcome minOrderSize then ⟨none, none⟩
    else if adjustedTakerOdds book outcome edge minOrderSize ≤ 0 ∨
        1 ≤ adjustedTakerOdds book outcome edge minOrderSize then ⟨none, none⟩
    else if reg2.contains marketHash then
      let order : SignedOrder :=
        { marketHash := marketHash
          maker := MAKER_ADDRESS
          baseToken := BASE_TOKEN
          totalBetSize := round (amount * 10 ^ 6)
          percentageOdds :=
            roundDownOddsToNearestStep
              (adjustedTakerOdds book outcome edge minOrderSize * IMPLIED_ODDS_MULTIPLIER)
          apiExpiry := nowSec + 300
          expiry := 2209006800
          executor := EXECUTOR
          isMakerBettingOutcomeOne := outcome == 1
          salt := salt }
      ⟨some order, if submitOk then some (String.append "orderHash:" salt) else none⟩
    else ⟨none, none⟩
  else ⟨none, none⟩

/-- An operator order as returned by `GET /orders?marketHashes=&maker=`
(`fetchActiveOrders`).  Only the fields `processMarket` reads are kept;
`percentageOdds` is the integer value of the API's canonical decimal
string (the source compares the strings at line 429; both sides are
canonical integer renderings, so string equality is integer equality). -/
structure ActiveOrder where
  orderHash : String
  percentageOdds : ℤ
deriving DecidableEq, Repr

/-- JS value returned by `fetchActiveOrders`: either `null` or an array.
The distinction exists only to state that the `null` case never
occurs. -/
inductive FetchResult where
  | nullV : FetchResult
  | arr : List ActiveOrder → FetchResult
deriving DecidableEq, Repr

/-- The retry loop of `fetchActiveOrders` (`network.js` lines 47-81).
`attempts i` is the oracle outcome of the `i`-th HTTP attempt (`some
orders` on a 2xx response with a `data` field, `none` on timeout, error
status or malformed body).  The fuel is `maxRetries - attempt`. -/
def fetchActiveOrdersGo (attempts : ℕ → Option (List ActiveOrder)) (attempt : ℕ) :
    ℕ → FetchResult
  | 0 => FetchResult.arr []
  | fuel + 1 =>
    match attempts attempt with
    | some orders => FetchResult.arr orders
    | none => fetchActiveOrdersGo attempts (attempt + 1) fuel

/-- `fetchActiveOrders` (`network.js` lines 47-81): run up to
`maxRetries` attempts starting at attempt 0; if every attempt fails,
return the empty array. -/
def fetchActiveOrders (attempts : ℕ → Option (List ActiveOrder)) (maxRetries : ℕ := 3) :
    FetchResult :=
  fetchActiveOrdersGo attempts 0 maxRetries

/-- Position configuration as read by `processMarket` (`monitor.js`
line 345).  `startTime` and `marketDetails` are omitted: `startTime`
only parametrizes the external `GET /trades` query, which is modelled
by the oracle input `totalFilledRaw`. -/
structure Config where
  outcome : ℤ
  maxFill : ℚ
  increments : ℚ
  edge : ℚ
  maxVig : ℚ
  minOrderSize : ℚ
deriving DecidableEq, Repr

/-- An outbound IPC status message (`{action, marketHash, currentFill}`
shape handled by the parent in `iceberg.js` lines 750-770). -/
structure StatusMsg where
  action : String
  marketHash : String
  currentFill : ℚ
deriving DecidableEq, Repr

/-- Everything one `processMarket` tick does to the world: whether the
market was deleted from `monitoringConfig`, the hash list passed to
`cancelOrdersForMonitoring` (`none` when no cancellation call was
made), the size handed to `postOrderForPosition` (`none` when no post
was attempted), and the IPC status messages sent with `process.send`.
`monitor.js` contains no `process.send` call, so `msgs` is `[]` in
every branch. -/
structure TickResult where
  removed : Bool
  cancelled : Option (List String)
  posted : Option ℚ
  msgs : List StatusMsg
deriving DecidableEq, Repr

/-- `remainingNeeded` (`monitor.js` lines 348-359): `maxFill` minus the
trade-history fill total converted to base units. -/
def remainingNeeded (cfg : Config) (totalFilledRaw : ℚ) : ℚ :=
  cfg.maxFill - totalFilledRaw / 10 ^ 6

/-- The vig `processMarket` reads at line 367. -/
def tickVig (cfg : Config) (book : List OBEntry) : ℚ :=
  (getMarketDataFromOrderBook book (cfg.outcome == 1) cfg.minOrderSize).2

/-- The best taker odds `processMarket` reads at line 367. -/
def tickBestTakerOdds (cfg : Config) (book : List OBEntry) : ℚ :=
  (getMarketDataFromOrderBook book (cfg.outcome == 1) cfg.minOrderSize).1

/-- The desired laddered scaled odds recomputed at `monitor.js` lines
414-423 from the position's edge. -/
def desiredLadderedOdds (cfg : Config) (book : List OBEntry) : ℚ :=
  roundDownOddsToNearestStep
    (tickBestTakerOdds cfg book * (1 - cfg.edge / 100) * IMPLIED_ODDS_MULTIPLIER)

/-- The repost test of `monitor.js` lines 427-434: some active order's
`percentageOdds` differs from the desired laddered value. -/
def needsRepost (cfg : Config) (book : List OBEntry) (active : List ActiveOrder) : Bool :=
  active.any fun o => !((o.percentageOdds : ℚ) == desiredLadderedOdds cfg book)

/-- One tick of the Monitoring Scheduler for one market: `processMarket`
(`monitor.js` lines 342-451).  Oracle inputs: `totalFilledRaw` is the
summed stake returned by `getFilledVolumeSinceStart` (already a
BigNumber in raw 1e6-scaled units, 0 on any fetch error); `book` is
`orderBooks.get(marketHash)`; `activeVig` is the list fetched inside
the high-vig branch (line 379) and `active` the list fetched at step 4
(line 385) — both fetches go through `fetchActiveOrders`, which never
yields `null`, so they are plain lists here.  The `isNaN(totalFilledBase)`
guard (line 353) cannot fire over `ℚ`.  The inner
`remainingNeeded < 10` re-check at line 388 is kept although the
line-360 return makes it dead, and the `activeOrders === null` guard at
line 395 is unrepresentable for a list (see the C10 theorem). -/
def processMarket (cfg : Config) (totalFilledRaw : ℚ) (book : List OBEntry)
    (activeVig active : List ActiveOrder) : TickResult :=
  if remainingNeeded cfg totalFilledRaw < 10 then
    ⟨true, none, none, []⟩
  else if tickVig cfg book > cfg.maxVig then
    (if book = [] then ⟨false, none, none, []⟩
     else ⟨false, some (activeVig.map (·.orderHash)), none, []⟩)
  else if active = [] then
    (if remainingNeeded cfg totalFilledRaw < 10 then ⟨true, none, none, []⟩
     else ⟨false, none, some (min (remainingNeeded cfg totalFilledRaw) cfg.increments), []⟩)
  else if tickBestTakerOdds cfg book ≤ 0 ∨ 1 ≤ tickBestTakerOdds cfg book then
    ⟨false, none, none, []⟩
  else if needsRepost cfg book active then
    (if min (remainingNeeded cfg totalFilledRaw) cfg.increments < 10 then
      ⟨true, some (active.map (·.orderHash)), none, []⟩
     else
      ⟨false, some (active.map (·.orderHash)),
       some (min (remainingNeeded cfg totalFilledRaw) cfg.increments), []⟩)
  else ⟨false, none, none, []⟩

/-!  Spec-side derived notions, used to state the claims about the
Market Data Engine independently of the scan order of the code. -/

/-- Entries meeting the minimum-size filter of the vig computation. -/
def sizeQualifying (minOrderSize : ℚ) (book : List OBEntry) : List OBEntry :=
  book.filter fun e => !(e.totalBetSize < minOrderSize)

/-- The best (maximum) maker implied probability over size-qualifying
entries whose maker bets the given side, 0 if there are none. -/
def bestMakerProbOnSide (side : Bool) (minOrderSize : ℚ) (book : List OBEntry) : ℚ :=
  ((sizeQualifying minOrderSize book).filter
      fun e => e.isMakerBettingOutcomeOne == side).foldr
    (fun e acc => max (probOf e) acc) 0

/-- Size-qualifying entries on the side opposite to the user's. -/
def oppQualifying (isUserBettingOutcomeOne : Bool) (minOrderSize : ℚ)
    (book : List OBEntry) : List OBEntry :=
  (sizeQualifying minOrderSize book).filter
    fun e => e.isMakerBettingOutcomeOne != isUserBettingOutcomeOne

/-- The best (maximum) maker implied probability over the qualifying
opposite-side entries, 0 if there are none. -/
def bestOppProbSpec (isUserBettingOutcomeOne : Bool) (minOrderSize : ℚ)
    (book : List OBEntry) : ℚ :=
  (oppQualifying isUserBettingOutcomeOne minOrderSize book).foldr
    (fun e acc => max (probOf e) acc) 0

/-!  Concrete instances used by the closed theorems below. -/

/-- An externally-owned opposite-side (outcome-two) book entry of size
200 at maker probability 0.50 (`percentageOdds` 5e19). -/
def entryOpp : OBEntry :=
  { orderHash := "0xbook1", status := "ACTIVE", maker := "0xOTHER",
    totalBetSize := 200, percentageOdds := 5 * 10 ^ 19, expiry := 0,
    isMakerBettingOutcomeOne := false, updateTime := 0 }

/-- An outcome-one book entry of size 200 at maker probability 0.50. -/
def entryO1Half : OBEntry :=
  { orderHash := "0xbook2", status := "ACTIVE", maker := "0xOTHER",
    totalBetSize := 200, percentageOdds := 5 * 10 ^ 19, expiry := 0,
    isMakerBettingOutcomeOne := true, updateTime := 0 }

/-- An outcome-two book entry of size 200 at maker probability 0.43
(`percentageOdds` 4.3e19). -/
def entryO2FortyThree : OBEntry :=
  { orderHash := "0xbook3", status := "ACTIVE", maker := "0xOTHER",
    totalBetSize := 200, percentageOdds := 43 * 10 ^ 18, expiry := 0,
    isMakerBettingOutcomeOne := false, updateTime := 0 }

/-- Scenario-B book: best maker probabilities 0.50 on outcome one and
0.43 on outcome two. -/
def bookB : List OBEntry := [entryO1Half, entryO2FortyThree]

/-- A raw push-feed record with out-of-range `percentageOdds` 2e20
(implied probability 2), size 200 after conversion, externally owned. -/
def rawBig : RawOrder :=
  { orderHash := "0xr1", status := "ACTIVE", fillAmount := 0, maker := "0xOTHER",
    totalBetSize := 2 * 10 ^ 8, percentageOdds := 2 * 10 ^ 20, expiry := 0,
    apiExpiry := 0, salt := "s", isMakerBettingOutcomeOne := false,
    signature := "sig", updateTime := 0, chainVersion := "SXR", sportXeventId := "ev" }

/-- A raw push-feed record with in-range `percentageOdds` 5e19. -/
def rawGood : RawOrder :=
  { orderHash := "0xr2", status := "ACTIVE", fillAmount := 0, maker := "0xOTHER",
    totalBetSize := 2 * 10 ^ 8, percentageOdds := 5 * 10 ^ 19, expiry := 0,
    apiExpiry := 0, salt := "s", isMakerBettingOutcomeOne := false,
    signature := "sig", updateTime := 0, chainVersion := "SXR", sportXeventId := "ev" }

/-- An operator order resting at scaled odds 4e19. -/
def activeMismatch : ActiveOrder := { orderHash := "0xa1", percentageOdds := 4 * 10 ^ 19 }

/-- An operator order used where only its hash matters. -/
def oneActive : ActiveOrder := { orderHash := "0xa1", percentageOdds := 0 }

/-- Position for the C1 counterexample: `maxFill` 10000, so a fill of
9900 has ratio exactly 0.99 while 100 units remain. -/
def cfgC1 : Config :=
  { outcome := 1, maxFill := 10000, increments := 100, edge := 0, maxVig := 0,
    minOrderSize := 100 }

/-- Position for the C1 witness: `maxFill` 5, so remaining need is
below 10 from the start. -/
def cfgW1 : Config :=
  { outcome := 1, maxFill := 5, increments := 5, edge := 0, maxVig := 0,
    minOrderSize := 100 }

/-- Position for the C5 counterexample: a negative `maxVig`, which the
CLI accepts (`questionFloat` with no lower bound) and the engine never
validates. -/
def cfgC5 : Config :=
  { outcome := 1, maxFill := 1000, increments := 250, edge := 0, maxVig := -(1 / 100),
    minOrderSize := 100 }

/-- Position for scenario B: `maxVig` 0.02. -/
def cfgB : Config :=
  { outcome := 1, maxFill := 1000, increments := 250, edge := 0, maxVig := 1 / 50,
    minOrderSize := 100 }

/-- Position for the C6 counterexample: increment 5 (below the 10-unit
posting floor) with 100 units still needed. -/
def cfgC6 : Config :=
  { outcome := 1, maxFill := 100, increments := 5, edge := 0, maxVig := 1,
    minOrderSize := 100 }

/-- Position for the C6 witness: increment 50. -/
def cfgC6w : Config :=
  { outcome := 1, maxFill := 100, increments := 50, edge := 0, maxVig := 1,
    minOrderSize := 100 }

/-- Position for the C10 witness. -/
def cfgC10 : Config :=
  { outcome := 1, maxFill := 1000, increments := 250, edge := 0, maxVig := 0,
    minOrderSize := 100 }

/-!  Helper lemmas characterizing the scans. -/

theorem ite_lt_eq_max (a p : ℚ) : (if a < p then p else a) = max a p := by
  rw [max_def]
  split_ifs <;> first | rfl | linarith

theorem foldr_max_nonneg (l : List OBEntry) :
    0 ≤ l.foldr (fun e acc => max (probOf e) acc) 0 := by
  induction l with
  | nil => exact le_refl 0
  | cons e l ih => exact le_trans ih (le_max_right _ _)

theorem foldr_max_le (l : List OBEntry) (c : ℚ) (hc : 0 ≤ c)
    (h : ∀ e ∈ l, probOf e ≤ c) :
    l.foldr (fun e acc => max (probOf e) acc) 0 ≤ c := by
  induction l with
  | nil => simpa using hc
  | cons e l ih =>
    simp only [List.foldr_cons]
    exact max_le (h e (List.mem_cons_self e l)) (ih fun x hx => h x (List.mem_cons_of_mem e hx))

theorem sizeQualifying_cons (m : ℚ) (e : OBEntry) (l : List OBEntry) :
    sizeQualifying m (e :: l) =
      if e.totalBetSize < m then sizeQualifying m l else e :: sizeQualifying m l := by
  simp only [sizeQualifying, List.filter_cons]
  by_cases h : e.totalBetSize < m <;> simp [h]

theorem bestMakerProbOnSide_nonneg (s : Bool) (m : ℚ) (l : List OBEntry) :
    0 ≤ bestMakerProbOnSide s m l :=
  foldr_max_nonneg _

theorem bestMakerProbOnSide_cons (s : Bool) (m : ℚ) (e : OBEntry) (l : List OBEntry) :
    bestMakerProbOnSide s m (e :: l) =
      if ¬ e.totalBetSize < m ∧ e.isMakerBettingOutcomeOne = s then
        max (probOf e) (bestMakerProbOnSide s m l)
      else bestMakerProbOnSide s m l := by
  simp only [bestMakerProbOnSide, sizeQualifying_cons]
  by_cases hsz : e.totalBetSize < m
  · simp [hsz]
  · by_cases hside : e.isMakerBettingOutcomeOne = s <;> simp [hsz, hside, List.filter_cons]

theorem foldl_vigStep (m : ℚ) (l : List OBEntry) :
    ∀ (a b : ℚ) (n : ℕ), 0 ≤ a → 0 ≤ b →
      l.foldl (vigStep m) (a, b, n) =
        (max a (bestMakerProbOnSide true m l),
         max b (bestMakerProbOnSide false m l),
         n + (sizeQualifying m l).length) := by
  induction l with
  | nil =>
    intro a b n ha hb
    simp [bestMakerProbOnSide, sizeQualifying, max_eq_left ha, max_eq_left hb]
  | cons e l ih =>
    intro a b n ha hb
    simp only [List.foldl_cons]
    by_cases hsz : e.totalBetSize < m
    · have hstep : vigStep m (a, b, n) e = (a, b, n) := by simp [vigStep, hsz]
      rw [hstep, ih a b n ha hb, bestMakerProbOnSide_cons, bestMakerProbOnSide_cons,
        sizeQualifying_cons, if_pos hsz, if_neg (by simp [hsz]), if_neg (by simp [hsz])]
    · by_cases hside : e.isMakerBettingOutcomeOne
      · have hstep : vigStep m (a, b, n) e = (max a (probOf e), b, n + 1) := by
          simp [vigStep, hsz, hside]
        rw [hstep, ih (max a (probOf e)) b (n + 1) (le_trans ha (le_max_left _ _)) hb,
          bestMakerProbOnSide_cons, bestMakerProbOnSide_cons, sizeQualifying_cons,
          if_neg hsz, if_pos ⟨hsz, hside⟩, if_neg (by simp [hside])]
        simp only [List.length_cons, Prod.mk.injEq]
        exact ⟨max_assoc a (probOf e) _, trivial, by omega⟩
      · have hside' : e.isMakerBettingOutcomeOne = false := by
          simpa using hside
        have hstep : vigStep m (a, b, n) e = (a, max b (probOf e), n + 1) := by
          simp [vigStep, hsz, hside']
        rw [hstep, ih a (max b (probOf e)) (n + 1) ha (le_trans hb (le_max_left _ _)),
          bestMakerProbOnSide_cons, bestMakerProbOnSide_cons, sizeQualifying_cons,
          if_neg hsz, if_neg (by simp [hside']), if_pos ⟨hsz, hside'⟩]
        simp only [List.length_cons, Prod.mk.injEq]
        exact ⟨trivial, max_assoc b (probOf e) _, by omega⟩

theorem oppQualifying_cons (u : Bool) (m : ℚ) (e : OBEntry) (l : List OBEntry) :
    oppQualifying u m (e :: l) =
      if ¬ e.totalBetSize < m ∧ e.isMakerBettingOutcomeOne ≠ u then
        e :: oppQualifying u m l
      else oppQualifying u m l := by
  simp only [oppQualifying, sizeQualifying_cons]
  by_cases hsz : e.totalBetSize < m
  · simp [hsz]
  · by_cases hside : e.isMakerBettingOutcomeOne = u <;>
      simp [hsz, hside, List.filter_cons]

theorem bestOppProbSpec_nonneg (u : Bool) (m : ℚ) (l : List OBEntry) :
    0 ≤ bestOppProbSpec u m l :=
  foldr_max_nonneg _

theorem bestOppProbSpec_cons (u : Bool) (m : ℚ) (e : OBEntry) (l : List OBEntry) :
    bestOppProbSpec u m (e :: l) =
      if ¬ e.totalBetSize < m ∧ e.isMakerBettingOutcomeOne ≠ u then
        max (probOf e) (bestOppProbSpec u m l)
      else bestOppProbSpec u m l := by
  simp only [bestOppProbSpec, oppQualifying_cons]
  by_cases hc : ¬ e.totalBetSize < m ∧ e.isMakerBettingOutcomeOne ≠ u
  · rw [if_pos hc, if_pos hc]
    rfl
  · rw [if_neg hc, if_neg hc]

theorem foldl_bestOppStep (u : Bool) (m : ℚ) (l : List OBEntry) :
    ∀ a : ℚ, 0 ≤ a →
      l.foldl (bestOppStep u m) a = max a (bestOppProbSpec u m l) := by
  induction l with
  | nil =>
    intro a ha
    simp [bestOppProbSpec, oppQualifying, sizeQualifying, max_eq_left ha]
  | cons e l ih =>
    intro a ha
    simp only [List.foldl_cons]
    by_cases hsz : e.totalBetSize < m
    · have hstep : bestOppStep u m a e = a := by simp [bestOppStep, hsz]
      rw [hstep, ih a ha, bestOppProbSpec_cons, if_neg (by simp [hsz])]
    · by_cases hside : e.isMakerBettingOutcomeOne = u
      · have hstep : bestOppStep u m a e = a := by simp [bestOppStep, hsz, hside]
        rw [hstep, ih a ha, bestOppProbSpec_cons, if_neg (by simp [hside])]
      · have hstep : bestOppStep u m a e = max a (probOf e) := by
          simp [bestOppStep, hsz, hside, ite_lt_eq_max]
        rw [hstep, ih (max a (probOf e)) (le_trans ha (le_max_left _ _)),
          bestOppProbSpec_cons, if_pos ⟨hsz, hside⟩]
        exact max_assoc a (probOf e) _

/-- The scan of `getMarketDataFromOrderBook` computes exactly the
maximum maker implied probability over qualifying opposite-side
entries. -/
theorem bestMakerProbOpposite_eq (book : List OBEntry) (u : Bool) (m : ℚ) :
    bestMakerProbOpposite book u m = bestOppProbSpec u m book := by
  unfold bestMakerProbOpposite
  rw [foldl_bestOppStep u m book 0 le_rfl,
    max_eq_right (bestOppProbSpec_nonneg u m book)]

theorem mem_handleOrderBookUpdate {addr : String} {bk : List OBEntry}
    {os : List RawOrder} {m : ℚ} {e : OBEntry}
    (h : e ∈ handleOrderBookUpdate addr bk os m) :
    e ∈ bk ∨ ∃ o ∈ os, e.percentageOdds = o.percentageOdds := by
  unfold handleOrderBookUpdate at h
  simp only [List.mem_append, List.mem_filterMap] at h
  rcases h with h | ⟨o, ho, hmap⟩
  · exact Or.inl h
  · refine Or.inr ⟨o, ho, ?_⟩
    by_cases hc : o.totalBetSize / 10 ^ 6 < m ∨ o.maker = addr
    · simp [hc] at hmap
    · rw [if_neg hc] at hmap
      rw [← Option.some.inj hmap]

theorem mem_foldl_handle {addr : String} (updates : List (List RawOrder)) :
    ∀ (bk : List OBEntry) (e : OBEntry),
      e ∈ updates.foldl (fun b u => handleOrderBookUpdate addr b u 100) bk →
      e ∈ bk ∨ ∃ batch ∈ updates, ∃ o ∈ batch, e.percentageOdds = o.percentageOdds := by
  induction updates with
  | nil =>
    intro bk e h
    exact Or.inl (by simpa using h)
  | cons u us ih =>
    intro bk e h
    simp only [List.foldl_cons] at h
    rcases ih _ e h with h' | ⟨batch, hb, o, ho, he⟩
    · rcases mem_handleOrderBookUpdate h' with h'' | ⟨o, ho, he⟩
      · exact Or.inl h''
      · exact Or.inr ⟨u, List.mem_cons_self _ _, o, ho, he⟩
    · exact Or.inr ⟨batch, List.mem_cons_of_mem _ hb, o, ho, he⟩

theorem mem_applyUpdates {addr : String} {updates : List (List RawOrder)} {e : OBEntry}
    (h : e ∈ applyUpdates addr updates) :
    ∃ batch ∈ updates, ∃ o ∈ batch, e.percentageOdds = o.percentageOdds := by
  rcases mem_foldl_handle updates [] e h with h' | h'
  · simp at h'
  · exact h'

/-!  Claim theorems. -/

/-- C1 (amended): on a tick where the remaining need (`maxFill` minus
the aggregate filled amount in base units) is below 10 units, the
market is treated as complete: its entry is removed from the registry,
no cancellation or post happens, and no notification is sent (the
engine sends no IPC message).  There is no separate `fill/maxFill ≥
0.99` test: completion is decided by `remainingNeeded < 10` alone
(`monitor.js` lines 358-364). -/
theorem c1_completion_rule (cfg : Config) (totalFilledRaw : ℚ) (book : List OBEntry)
    (activeVig active : List ActiveOrder)
    (h : remainingNeeded cfg totalFilledRaw < 10) :
    processMarket cfg totalFilledRaw book activeVig active =
      { removed := true, cancelled := none, posted := none, msgs := [] } := by
  unfold processMarket
  rw [if_pos h]

/-- C1 witness: a position with `maxFill` 5 and nothing filled has
remaining need below 10 and is removed on its first tick. -/
theorem c1_completion_rule_witness :
    remainingNeeded cfgW1 0 < 10 ∧
      processMarket cfgW1 0 [] [] [] =
        { removed := true, cancelled := none, posted := none, msgs := [] } :=
  ⟨by norm_num [remainingNeeded, cfgW1],
   c1_completion_rule cfgW1 0 [] [] [] (by norm_num [remainingNeeded, cfgW1])⟩

/-- C1 counterexample: with `maxFill` 10000 and 9900 filled the fill
ratio is exactly 0.99, yet the tick does not treat the position as
complete — the market stays registered, no message is sent, and a new
order of 100 units is posted, contradicting the claimed
`fill/maxFill ≥ 0.99` completion condition. -/
theorem c1_ratio_counterexample :
    (9900 * 10 ^ 6 : ℚ) / 10 ^ 6 / cfgC1.maxFill ≥ 99 / 100 ∧
      processMarket cfgC1 (9900 * 10 ^ 6) [] [] [] =
        { removed := false, cancelled := none, posted := some 100, msgs := [] } := by
  constructor
  · norm_num [cfgC1]
  · norm_num [processMarket, remainingNeeded, tickVig, tickBestTakerOdds,
      getMarketDataFromOrderBook, getVigFromOrderBook, vigStep, bestMakerProbOpposite,
      bestOppStep, probOf, cfgC1, needsRepost, desiredLadderedOdds,
      roundDownOddsToNearestStep, ODDS_LADDER_STEP_SIZE, IMPLIED_ODDS_MULTIPLIER, min_def]

/-- C2 (amended): no per-market cooldown is enforced.  Whether a post
succeeds is independent of the clock: for any two call times (and
salts) the success of `postOrderForPosition` is identical, so nothing
prevents two successful posts for the same market from being
arbitrarily close together.  `postOrderForPosition` (`monitor.js`
lines 220-314) records no last-post timestamp and reads the clock only
to stamp `apiExpiry`. -/
theorem c2_no_cooldown (reg1 reg2 : List String) (marketHash : String) (outcome : ℤ)
    (amount edge minOrderSize : ℚ) (book : List OBEntry) (t1 t2 : ℤ)
    (salt1 salt2 : String) (submitOk : Bool) :
    (postOrderForPosition reg1 reg2 marketHash outcome amount edge minOrderSize
        book t1 salt1 submitOk).result.isSome =
      (postOrderForPosition reg1 reg2 marketHash outcome amount edge minOrderSize
        book t2 salt2 submitOk).result.isSome := by
  simp only [postOrderForPosition]
  split_ifs <;> rfl

/-- C2 counterexample: with the market registered and a valid book, a
post at second 0 and another at second 1 both succeed — 1 second apart,
far below the claimed roughly 5-second cooldown — so a post is not
rejected for following a successful post too closely. -/
theorem c2_cooldown_counterexample :
    (postOrderForPosition ["m"] ["m"] "m" 1 250 2 100 [entryOpp] 0 "salt-a"
        true).result.isSome = true ∧
      (postOrderForPosition ["m"] ["m"] "m" 1 250 2 100 [entryOpp] 1 "salt-b"
        true).result.isSome = true ∧
      (1 : ℤ) - 0 < 5 := by
  refine ⟨?_, ?_, by norm_num⟩ <;>
    norm_num [postOrderForPosition, bestTakerOddsFor, adjustedTakerOdds,
      getMarketDataFromOrderBook, bestMakerProbOpposite, bestOppStep, probOf, entryOpp,
      getVigFromOrderBook, vigStep]

/-- C3: the vig computation takes the best (maximum) maker implied
probability on each side over entries meeting the minimum-size filter
(p1 on outcome one, p2 on outcome two) and returns
`(1 - p2) + (1 - p1) - 1`; when no size-qualifying entry exists on
either side it returns exactly 0 instead of an error. -/
theorem c3_vig_formula (book : List OBEntry) (minOrderSize : ℚ) :
    getVigFromOrderBook book minOrderSize =
      if sizeQualifying minOrderSize book = [] then 0
      else (1 - bestMakerProbOnSide false minOrderSize book) +
        (1 - bestMakerProbOnSide true minOrderSize book) - 1 := by
  simp only [getVigFromOrderBook]
  rw [foldl_vigStep minOrderSize book 0 0 0 le_rfl le_rfl]
  dsimp only
  rw [max_eq_right (bestMakerProbOnSide_nonneg true minOrderSize book),
    max_eq_right (bestMakerProbOnSide_nonneg false minOrderSize book), Nat.zero_add]
  by_cases hq : sizeQualifying minOrderSize book = []
  · rw [if_pos (by rw [hq]; rfl), if_pos hq]
  · rw [if_neg (fun hc => hq (List.length_eq_zero.mp hc)), if_neg hq]

/-- C4: if the market is absent from the registry at the
pre-computation check or at the post-computation re-check, the post
returns `null` and no order is signed or submitted; equivalently, a
submitted order requires the market registered at both check points. -/
theorem c4_registry_double_check (reg1 reg2 : List String) (marketHash : String)
    (outcome : ℤ) (amount edge minOrderSize : ℚ) (book : List OBEntry) (nowSec : ℤ)
    (salt : String) (submitOk : Bool)
    (h : ¬ (reg1.contains marketHash = true ∧ reg2.contains marketHash = true)) :
    postOrderForPosition reg1 reg2 marketHash outcome amount edge minOrderSize
        book nowSec salt submitOk =
      { submitted := none, result := none } := by
  simp only [postOrderForPosition]
  split_ifs <;> first | rfl | exact absurd ⟨by assumption, by assumption⟩ h

/-- C4 witness: with the market missing from the registry at the first
check (and present at the second), nothing is submitted and `null` is
returned. -/
theorem c4_registry_double_check_witness :
    (¬ (List.contains [] "m" = true ∧ List.contains ["m"] "m" = true)) ∧
      postOrderForPosition [] ["m"] "m" 1 250 2 100 [] 0 "s" true =
        { submitted := none, result := none } :=
  ⟨by simp, c4_registry_double_check [] ["m"] "m" 1 250 2 100 [] 0 "s" true (by simp)⟩

/-- C5 (amended): on a tick that reaches the vig check, if the
computed vig strictly exceeds `maxVig` and the market's order-book
list is non-empty, the tick cancels the fetched active orders and
posts nothing; when the order-book list is empty (which under
`vig > maxVig` requires `maxVig < 0`, since the vig of an empty book
is 0) the tick instead returns without cancelling — see the
counterexample.  In either case no order is posted. -/
theorem c5_vig_cancel (cfg : Config) (totalFilledRaw : ℚ) (book : List OBEntry)
    (activeVig active : List ActiveOrder)
    (h1 : ¬ remainingNeeded cfg totalFilledRaw < 10)
    (h2 : tickVig cfg book > cfg.maxVig) (h3 : book ≠ []) :
    processMarket cfg totalFilledRaw book activeVig active =
      { removed := false, cancelled := some (activeVig.map (·.orderHash)),
        posted := none, msgs := [] } := by
  unfold processMarket
  rw [if_neg h1, if_pos h2, if_neg h3]

/-- C5 witness (scenario B): best maker probabilities 0.50 (outcome
one) and 0.43 (outcome two) give vig `(1-0.43)+(1-0.50)-1 = 0.07`;
with `maxVig = 0.02` the tick cancels the operator's fetched active
order and posts nothing. -/
theorem c5_vig_cancel_witness :
    tickVig cfgB bookB = 7 / 100 ∧
      (¬ remainingNeeded cfgB 0 < 10) ∧ tickVig cfgB bookB > cfgB.maxVig ∧ bookB ≠ [] ∧
      processMarket cfgB 0 bookB [oneActive] [oneActive] =
        { removed := false, cancelled := some (List.map (·.orderHash) [oneActive]),
          posted := none, msgs := [] } :=
  ⟨by norm_num [tickVig, getMarketDataFromOrderBook, getVigFromOrderBook, vigStep,
      probOf, cfgB, bookB, entryO1Half, entryO2FortyThree, max_def],
   by norm_num [remainingNeeded, cfgB],
   by norm_num [tickVig, getMarketDataFromOrderBook, getVigFromOrderBook, vigStep,
      probOf, cfgB, bookB, entryO1Half, entryO2FortyThree, max_def],
   by simp [bookB],
   c5_vig_cancel cfgB 0 bookB [oneActive] [oneActive]
     (by norm_num [remainingNeeded, cfgB])
     (by norm_num [tickVig, getMarketDataFromOrderBook, getVigFromOrderBook, vigStep,
        probOf, cfgB, bookB, entryO1Half, entryO2FortyThree, max_def])
     (by simp [bookB])⟩

/-- C5 counterexample: with `maxVig = -0.01` (accepted unchecked from
the CLI) and an empty order-book list, the computed vig 0 exceeds
`maxVig`, the operator has an active order, yet the tick issues no
cancellation call at all — the claimed "cancel all active orders" does
not happen. -/
theorem c5_empty_book_counterexample :
    tickVig cfgC5 [] > cfgC5.maxVig ∧
      processMarket cfgC5 0 [] [oneActive] [oneActive] =
        { removed := false, cancelled := none, posted := none, msgs := [] } := by
  constructor
  · norm_num [tickVig, getMarketDataFromOrderBook, getVigFromOrderBook, vigStep, cfgC5]
  · norm_num [processMarket, remainingNeeded, tickVig, tickBestTakerOdds,
      getMarketDataFromOrderBook, getVigFromOrderBook, vigStep, bestMakerProbOpposite,
      bestOppStep, probOf, cfgC5]

/-- C6 (amended): on a tick that reaches the active-order price check
(position not complete, vig acceptable, at least one active order,
best taker odds strictly between 0 and 1): if some active order's
recorded scaled odds differ from the freshly computed laddered target,
all active orders are cancelled and then a replacement sized
`min(remaining, increment)` is posted when that size is at least 10
units, while otherwise — in particular whenever the increment is below
10 even though the remaining need is not — the position is removed
without posting; if all active orders match the target, nothing is
done.  The posting condition is `min(remaining, increment) ≥ 10`, not
`remaining ≥ 10` as claimed (`monitor.js` lines 440-445). -/
theorem c6_repost_rule (cfg : Config) (totalFilledRaw : ℚ) (book : List OBEntry)
    (activeVig active : List ActiveOrder)
    (h1 : ¬ remainingNeeded cfg totalFilledRaw < 10)
    (h2 : ¬ tickVig cfg book > cfg.maxVig) (h3 : active ≠ [])
    (h4 : ¬ (tickBestTakerOdds cfg book ≤ 0 ∨ 1 ≤ tickBestTakerOdds cfg book)) :
    processMarket cfg totalFilledRaw book activeVig active =
      if needsRepost cfg book active then
        (if min (remainingNeeded cfg totalFilledRaw) cfg.increments < 10 then
          { removed := true, cancelled := some (active.map (·.orderHash)),
            posted := none, msgs := [] }
         else
          { removed := false, cancelled := some (active.map (·.orderHash)),
            posted := some (min (remainingNeeded cfg totalFilledRaw) cfg.increments),
            msgs := [] })
      else { removed := false, cancelled := none, posted := none, msgs := [] } := by
  unfold processMarket
  rw [if_neg h1, if_neg h2, if_neg h3, if_neg h4]

/-- C6 witness: increment 50, remaining 100, one active order resting
at scaled odds 4e19 while the laddered target is 5e19: the order is
cancelled and a 50-unit replacement is posted. -/
theorem c6_repost_rule_witness :
    (¬ remainingNeeded cfgC6w 0 < 10) ∧
      (¬ tickVig cfgC6w [entryOpp] > cfgC6w.maxVig) ∧
      ([activeMismatch] ≠ ([] : List ActiveOrder)) ∧
      (¬ (tickBestTakerOdds cfgC6w [entryOpp] ≤ 0 ∨
          1 ≤ tickBestTakerOdds cfgC6w [entryOpp])) ∧
      processMarket cfgC6w 0 [entryOpp] [] [activeMismatch] =
        { removed := false, cancelled := some ["0xa1"], posted := some 50, msgs := [] } :=
  ⟨by norm_num [remainingNeeded, cfgC6w],
   by norm_num [tickVig, getMarketDataFromOrderBook, getVigFromOrderBook, vigStep,
      probOf, cfgC6w, entryOpp, max_def],
   by simp,
   by norm_num [tickBestTakerOdds, getMarketDataFromOrderBook, bestMakerProbOpposite,
      bestOppStep, probOf, cfgC6w, entryOpp],
   (c6_repost_rule cfgC6w 0 [entryOpp] [] [activeMismatch]
      (by norm_num [remainingNeeded, cfgC6w])
      (by norm_num [tickVig, getMarketDataFromOrderBook, getVigFromOrderBook, vigStep,
         probOf, cfgC6w, entryOpp, max_def])
      (by simp)
      (by norm_num [tickBestTakerOdds, getMarketDataFromOrderBook, bestMakerProbOpposite,
         bestOppStep, probOf, cfgC6w, entryOpp])).trans
     (by norm_num [needsRepost, desiredLadderedOdds, tickBestTakerOdds,
        getMarketDataFromOrderBook, bestMakerProbOpposite, bestOppStep, probOf,
        roundDownOddsToNearestStep, ODDS_LADDER_STEP_SIZE, IMPLIED_ODDS_MULTIPLIER,
        remainingNeeded, cfgC6w, entryOpp, activeMismatch, min_def])⟩

/-- C6 counterexample: increment 5 with remaining need 100 (at least
10 units) and a mismatched active order: the order is cancelled but no
replacement is posted — instead the position is removed — contradicting
the claim that a remaining need of at least 10 units yields a
replacement post. -/
theorem c6_increment_counterexample :
    ¬ remainingNeeded cfgC6 0 < 10 ∧
      needsRepost cfgC6 [entryOpp] [activeMismatch] = true ∧
      processMarket cfgC6 0 [entryOpp] [] [activeMismatch] =
        { removed := true, cancelled := some ["0xa1"], posted := none, msgs := [] } := by
  refine ⟨by norm_num [remainingNeeded, cfgC6], ?_, ?_⟩
  · norm_num [needsRepost, desiredLadderedOdds, tickBestTakerOdds,
      getMarketDataFromOrderBook, bestMakerProbOpposite, bestOppStep, probOf,
      roundDownOddsToNearestStep, ODDS_LADDER_STEP_SIZE, IMPLIED_ODDS_MULTIPLIER,
      cfgC6, entryOpp, activeMismatch]
  · norm_num [processMarket, remainingNeeded, tickVig, tickBestTakerOdds,
      getMarketDataFromOrderBook, getVigFromOrderBook, vigStep, bestMakerProbOpposite,
      bestOppStep, probOf, cfgC6, needsRepost, desiredLadderedOdds,
      roundDownOddsToNearestStep, ODDS_LADDER_STEP_SIZE, IMPLIED_ODDS_MULTIPLIER,
      entryOpp, activeMismatch, min_def, max_def]

/-- C7: the price-ladder flooring is idempotent and, on nonnegative
scaled odds, contracting: the laddered value never exceeds the
unrounded target, so the posted price never overshoots the intended
edge. -/
theorem c7_ladder_floor (x : ℚ) (h : 0 ≤ x) :
    roundDownOddsToNearestStep (roundDownOddsToNearestStep x) =
        roundDownOddsToNearestStep x ∧
      roundDownOddsToNearestStep x ≤ x := by
  have hs : (0 : ℚ) < ODDS_LADDER_STEP_SIZE * IMPLIED_ODDS_MULTIPLIER := by
    norm_num [ODDS_LADDER_STEP_SIZE, IMPLIED_ODDS_MULTIPLIER]
  constructor
  · simp only [roundDownOddsToNearestStep]
    rw [mul_div_cancel_right₀ _ (ne_of_gt hs), Int.floor_intCast]
  · simp only [roundDownOddsToNearestStep]
    calc (⌊x / (ODDS_LADDER_STEP_SIZE * IMPLIED_ODDS_MULTIPLIER)⌋ : ℚ) *
          (ODDS_LADDER_STEP_SIZE * IMPLIED_ODDS_MULTIPLIER)
        ≤ x / (ODDS_LADDER_STEP_SIZE * IMPLIED_ODDS_MULTIPLIER) *
          (ODDS_LADDER_STEP_SIZE * IMPLIED_ODDS_MULTIPLIER) :=
          mul_le_mul_of_nonneg_right (Int.floor_le _) hs.le
      _ = x := div_mul_cancel₀ x (ne_of_gt hs)

/-- C7 witness (scenario C numbers): the scaled target 5.88e19
(maker probability 0.588) ladders down, idempotently, without
exceeding the target. -/
theorem c7_ladder_floor_witness :
    (0 : ℚ) ≤ 588 * 10 ^ 17 ∧
      (roundDownOddsToNearestStep (roundDownOddsToNearestStep (588 * 10 ^ 17)) =
          roundDownOddsToNearestStep (588 * 10 ^ 17) ∧
        roundDownOddsToNearestStep (588 * 10 ^ 17) ≤ 588 * 10 ^ 17) :=
  ⟨by norm_num, c7_ladder_floor (588 * 10 ^ 17) (by norm_num)⟩

/-- C8: the monitoring engine's tick sends no IPC status message in any
branch — neither `updateFill` on open ticks nor `markFilled` on
completion — although the parent process (`iceberg.js` lines 750-770)
installs handlers for exactly those messages from the forked
`monitor.js`.  `processMarket` contains no `process.send` call. -/
theorem c8_no_status_messages (cfg : Config) (totalFilledRaw : ℚ) (book : List OBEntry)
    (activeVig active : List ActiveOrder) :
    (processMarket cfg totalFilledRaw book activeVig active).msgs = [] := by
  unfold processMarket
  split_ifs <;> rfl

theorem fetchActiveOrdersGo_ne_null (attempts : ℕ → Option (List ActiveOrder)) :
    ∀ (fuel attempt : ℕ),
      fetchActiveOrdersGo attempts attempt fuel ≠ FetchResult.nullV := by
  intro fuel
  induction fuel with
  | zero =>
    intro a h
    simp [fetchActiveOrdersGo] at h
  | succ fuel ih =>
    intro a h
    simp only [fetchActiveOrdersGo] at h
    cases hs : attempts a with
    | some l =>
      rw [hs] at h
      exact FetchResult.noConfusion h
    | none =>
      rw [hs] at h
      exact ih (a + 1) h

theorem fetchActiveOrdersGo_allfail (attempts : ℕ → Option (List ActiveOrder))
    (hf : ∀ i, attempts i = none) :
    ∀ (fuel attempt : ℕ),
      fetchActiveOrdersGo attempts attempt fuel = FetchResult.arr [] := by
  intro fuel
  induction fuel with
  | zero => intro a; rfl
  | succ fuel ih =>
    intro a
    simp only [fetchActiveOrdersGo, hf a]
    exact ih (a + 1)

theorem fetchActiveOrders_empty_success (maxRetries : ℕ) :
    fetchActiveOrders (fun _ => some []) maxRetries = FetchResult.arr [] := by
  cases maxRetries with
  | zero => rfl
  | succ n => simp [fetchActiveOrders, fetchActiveOrdersGo]

/-- C10: `fetchActiveOrders` never throws and never yields `null` (so
the `activeOrders === null` guard in `processMarket` is unreachable);
after `maxRetries` failed attempts it returns the empty array, the
very value a genuinely empty order set produces; and in the scheduler,
an empty fetched list on a tick with remaining need at least 10 (and
acceptable vig) triggers posting a new order sized
`min(remaining, increment)`. -/
theorem c10_fetch_never_null (attempts : ℕ → Option (List ActiveOrder)) (maxRetries : ℕ)
    (cfg : Config) (totalFilledRaw : ℚ) (book : List OBEntry)
    (activeVig : List ActiveOrder)
    (hfail : ∀ i, attempts i = none)
    (h1 : ¬ remainingNeeded cfg totalFilledRaw < 10)
    (h2 : ¬ tickVig cfg book > cfg.maxVig) :
    (∀ (att : ℕ → Option (List ActiveOrder)) (k : ℕ),
        fetchActiveOrders att k ≠ FetchResult.nullV) ∧
      fetchActiveOrders attempts maxRetries = FetchResult.arr [] ∧
      fetchActiveOrders (fun _ => some []) maxRetries = FetchResult.arr [] ∧
      (processMarket cfg totalFilledRaw book activeVig []).posted =
        some (min (remainingNeeded cfg totalFilledRaw) cfg.increments) := by
  refine ⟨fun att k => fetchActiveOrdersGo_ne_null att k 0,
    fetchActiveOrdersGo_allfail attempts hfail maxRetries 0,
    fetchActiveOrders_empty_success maxRetries, ?_⟩
  unfold processMarket
  rw [if_neg h1, if_neg h2, if_pos rfl, if_neg h1]

/-- C10 witness: three timeouts in a row yield the empty array and the
scheduler posts a 250-unit order for a position with 1000 units
remaining. -/
theorem c10_fetch_never_null_witness :
    (∀ i : ℕ, (fun _ : ℕ => (none : Option (List ActiveOrder))) i = none) ∧
      (¬ remainingNeeded cfgC10 0 < 10) ∧ (¬ tickVig cfgC10 [] > cfgC10.maxVig) ∧
      ((∀ (att : ℕ → Option (List ActiveOrder)) (k : ℕ),
          fetchActiveOrders att k ≠ FetchResult.nullV) ∧
        fetchActiveOrders (fun _ => none) 3 = FetchResult.arr [] ∧
        fetchActiveOrders (fun _ => some []) 3 = FetchResult.arr [] ∧
        (processMarket cfgC10 0 [] [] []).posted =
          some (min (remainingNeeded cfgC10 0) cfgC10.increments)) :=
  ⟨fun _ => rfl,
   by norm_num [remainingNeeded, cfgC10],
   by norm_num [tickVig, getMarketDataFromOrderBook, getVigFromOrderBook, vigStep, cfgC10],
   c10_fetch_never_null (fun _ => none) 3 cfgC10 0 [] [] (fun _ => rfl)
     (by norm_num [remainingNeeded, cfgC10])
     (by norm_num [tickVig, getMarketDataFromOrderBook, getVigFromOrderBook, vigStep,
        cfgC10])⟩

/-- C9 (amended): for every sequence of order-book updates the
best-opposing-price scan returns a nonnegative value, and returns
exactly 0 when no size-qualifying opposite-side entry exists; the
value is at most 1 provided every raw record's `percentageOdds` is at
most the scaling constant 1e20.  Without that hypothesis the value can
exceed 1 (see the counterexample): ingestion never validates the
probability range. -/
theorem c9_best_opposing_bounds (addr : String) (updates : List (List RawOrder))
    (u : Bool) (m : ℚ)
    (h : ∀ batch ∈ updates, ∀ o ∈ batch, o.percentageOdds ≤ 10 ^ 20) :
    0 ≤ bestMakerProbOpposite (applyUpdates addr updates) u m ∧
      bestMakerProbOpposite (applyUpdates addr updates) u m ≤ 1 ∧
      (oppQualifying u m (applyUpdates addr updates) = [] →
        bestMakerProbOpposite (applyUpdates addr updates) u m = 0) := by
  rw [bestMakerProbOpposite_eq]
  refine ⟨bestOppProbSpec_nonneg _ _ _, ?_, ?_⟩
  · apply foldr_max_le _ 1 zero_le_one
    intro e he
    have hs : e ∈ sizeQualifying m (applyUpdates addr updates) :=
      (List.mem_filter.mp he).1
    have hb : e ∈ applyUpdates addr updates := (List.mem_filter.mp hs).1
    obtain ⟨batch, hbatch, o, ho, heq⟩ := mem_applyUpdates hb
    rw [probOf, heq, div_le_one (by positivity)]
    exact h batch hbatch o ho
  · intro hq
    simp only [bestOppProbSpec, hq, List.foldr_nil]

/-- C9 witness: a single in-range update batch yields a best opposing
price within `[0, 1]`, equal to 0 when no qualifying opposite entry
exists. -/
theorem c9_best_opposing_bounds_witness :
    (∀ batch ∈ [[rawGood]], ∀ o ∈ batch, o.percentageOdds ≤ 10 ^ 20) ∧
      (0 ≤ bestMakerProbOpposite (applyUpdates "0xME" [[rawGood]]) true 100 ∧
        bestMakerProbOpposite (applyUpdates "0xME" [[rawGood]]) true 100 ≤ 1 ∧
        (oppQualifying true 100 (applyUpdates "0xME" [[rawGood]]) = [] →
          bestMakerProbOpposite (applyUpdates "0xME" [[rawGood]]) true 100 = 0)) :=
  ⟨by norm_num [rawGood],
   c9_best_opposing_bounds "0xME" [[rawGood]] true 100 (by norm_num [rawGood])⟩

/-- C9 counterexample: one push update carrying a record with
`percentageOdds` 2e20 (size 200, externally owned) makes the
best-opposing-price scan return 2, outside `[0, 1]` — the claimed
range does not hold for arbitrary entry contents. -/
theorem c9_range_counterexample :
    bestMakerProbOpposite (applyUpdates MAKER_ADDRESS [[rawBig]]) true 100 = 2 ∧
      ¬ bestMakerProbOpposite (applyUpdates MAKER_ADDRESS [[rawBig]]) true 100 ≤ 1 := by
  have hne : ("0xOTHER" : String) ≠ "0xMAKER" := by decide
  constructor <;>
    norm_num [applyUpdates, handleOrderBookUpdate, toFixed4, rawBig, MAKER_ADDRESS,
      bestMakerProbOpposite, bestOppStep, probOf, round_eq, hne,
      List.filterMap_cons, List.filterMap_nil, List.foldl_cons, List.foldl_nil,
      Int.floor_eq_iff]

end Iceberg
